import Mathlib

/-!
Verification of the area-coverage planner of the `google_maps_scraper`
repository.  The Python sources `input_file_preprocessor.py` and
`gmaps_scraper.py` are shallowly embedded:

* floating point numbers are modelled as exact rationals (`ℚ`); the single
  square-root computation (`calculate_small_radius`) is modelled over `ℝ`;
* Python strings are modelled as lists of characters (`List Char`), with
  `split`/`strip` translated to structurally recursive list functions;
* raising an exception is modelled with `Except`;
* the external `geopy` functions (`geodesic` distance and bearing/distance
  `destination`) are abstract function parameters: the code under
  verification never inspects their results, it only pipes them around.
-/

/-- A coordinate pair `(latitude, longitude)`, as used throughout the
Python sources. -/
abbrev Point : Type := ℚ × ℚ

/-! ## `input_file_preprocessor.py` -/

/-- `InputFilePreprocessor.__init__`: `self.diameter_km = big_radius_km * 2`. -/
def diameter_km (big_radius_km : ℝ) : ℝ :=
  big_radius_km * 2

/-- `InputFilePreprocessor.calculate_small_radius`:
raises `ValueError` when `self.diameter_km <= 0`, otherwise returns
`sqrt(2 * diameter_km ** 2) - diameter_km`. -/
noncomputable def calculate_small_radius (diameter : ℝ) : Except String ℝ :=
  if diameter ≤ 0 then
    .error "diameter must be bigger than 0!"
  else
    .ok (Real.sqrt (2 * diameter ^ 2) - diameter)

/-- `InputFilePreprocessor.validate_amount_of_requests`: raises `ValueError`
when `geodesic_distance / diameter < 2`. -/
def validate_amount_of_requests (geodesic_distance diameter : ℚ) :
    Except String Unit :=
  let amount_of_circles_per_plane := geodesic_distance / diameter
  if 2 > amount_of_circles_per_plane then
    .error "The search field is too small/the radius to big."
  else
    .ok ()

/-- `InputFilePreprocessor.calculate_amount_of_requests`, parametrised by the
external `geopy.distance.geodesic` kilometre distance `dist`.  Measures the
width (upper left to upper right) and length (lower right to upper right) of
the box, validates both against the diameter and returns the two floors. -/
def calculate_amount_of_requests (dist : Point → Point → ℚ) (diameter : ℚ)
    (upper_left_coords lower_right_coords upper_right_coords : Point) :
    Except String (ℤ × ℤ) :=
  match validate_amount_of_requests
      (dist upper_left_coords upper_right_coords) diameter with
  | .error e => .error e
  | .ok _ =>
    match validate_amount_of_requests
        (dist lower_right_coords upper_right_coords) diameter with
    | .error e => .error e
    | .ok _ =>
      .ok (⌊dist upper_left_coords upper_right_coords / diameter⌋,
        ⌊dist lower_right_coords upper_right_coords / diameter⌋)

/-- Error taxonomy of `validate_coordinates_position`: Python raises
`ValueError` for an out-of-range coordinate and a bare `Exception` for a
crossed bounding box. -/
inductive PreprocessError : Type
  | invalidCoordinate (msg : String)
  | invalidBoundingBox (msg : String)
deriving DecidableEq, Repr

/-- `InputFilePreprocessor.validate_coordinates_values`: latitude must lie
strictly between -90 and 90, longitude strictly between -180 and 180. -/
def validate_coordinates_values (coords : Point) : Except PreprocessError Unit :=
  if ¬ (90 > coords.1 ∧ coords.1 > -90) then
    .error (.invalidCoordinate "Latitude must be in between 90 and -90")
  else if ¬ (180 > coords.2 ∧ coords.2 > -180) then
    .error (.invalidCoordinate "Longitude must be in between 180 and -180")
  else
    .ok ()

/-- `InputFilePreprocessor.validate_coordinates_position`: first range-checks
both corners, then checks the corner ordering. -/
def validate_coordinates_position
    (upper_left_coords lower_right_coords : Point) :
    Except PreprocessError Unit :=
  match validate_coordinates_values upper_left_coords with
  | .error e => .error e
  | .ok _ =>
    match validate_coordinates_values lower_right_coords with
    | .error e => .error e
    | .ok _ =>
      if lower_right_coords.1 > upper_left_coords.1 then
        .error (.invalidBoundingBox
          "The lower right coordinates latitude must not be higher")
      else if upper_left_coords.2 > lower_right_coords.2 then
        .error (.invalidBoundingBox
          "The upper left coordinates longitude must not be higher")
      else
        .ok ()

/-- Both coordinate components of a point are inside the open ranges checked
by `validate_coordinates_values`. -/
def coordinate_in_range (coords : Point) : Prop :=
  (90 > coords.1 ∧ coords.1 > -90) ∧ (180 > coords.2 ∧ coords.2 > -180)

instance : DecidablePred coordinate_in_range := fun _ => by
  unfold coordinate_in_range
  infer_instance

/-! ### Python string handling

Python `str` values are modelled as `List Char`; `str.split(",")` and
`str.strip()` are translated to structurally recursive functions. -/

/-- Python `str.split(",")`: auxiliary accumulator version. -/
def split_on_comma_aux : List Char → List Char → List (List Char)
  | [], acc => [acc.reverse]
  | c :: rest, acc =>
    if c = ',' then acc.reverse :: split_on_comma_aux rest []
    else split_on_comma_aux rest (c :: acc)

/-- Python `str.split(",")`. -/
def split_on_comma (s : List Char) : List (List Char) :=
  split_on_comma_aux s []

/-- Python `str.strip()`: drop leading and trailing whitespace. -/
def strip (s : List Char) : List Char :=
  ((s.dropWhile Char.isWhitespace).reverse.dropWhile Char.isWhitespace).reverse

/-- `InputFilePreprocessor._validate_search_terms`: raises `ValueError` when
the stripped raw input string is empty. -/
def validate_search_terms (search_terms : List Char) : Except String Unit :=
  let cleaned_search_terms := strip search_terms
  if cleaned_search_terms = [] then
    .error "You need to list the search terms for Google Maps"
  else
    .ok ()

/-- `InputFilePreprocessor.search_terms_to_list`: validates the raw string,
splits on commas, strips every chunk and drops the falsy (empty) ones. -/
def search_terms_to_list (search_terms : List Char) :
    Except String (List (List Char)) :=
  match validate_search_terms search_terms with
  | .error e => .error e
  | .ok _ =>
    let split_terms := split_on_comma search_terms
    let stripped_search_terms := split_terms.map strip
    let cleaned_search_terms := stripped_search_terms.filter (fun term => term ≠ [])
    .ok cleaned_search_terms

/-- The bounding box of the worked example (upper left corner), from the
repository test-suite and the specification. -/
def example_upper_left : Point := (52.68910140425828, 13.060384819899381)

/-- The bounding box of the worked example (lower right corner). -/
def example_lower_right : Point := (52.41019183750047, 13.775869390116974)

/-- The derived upper right corner of the worked example. -/
def example_upper_right : Point := (example_upper_left.1, example_lower_right.2)

/-! ## `gmaps_scraper.py` — the node walker

The external `geopy.distance.distance(...).destination(point, bearing)` call
is an abstract parameter `dest : Point → ℚ → ℚ → Point` taking the previous
node, the distance in kilometres and the bearing in degrees. -/

/-- `AreaScraper.add_km_to_latitude`: the latitude of the destination of a
great-circle move of `added_distance_km` at bearing 180 (south). -/
def add_km_to_latitude (dest : Point → ℚ → ℚ → Point)
    (previous_node : Point) (added_distance_km : ℚ) : ℚ :=
  (dest previous_node added_distance_km 180).1

/-- `AreaScraper.add_km_to_longitude`: the longitude of the destination of a
great-circle move of `added_distance_km` at bearing 90 (east). -/
def add_km_to_longitude (dest : Point → ℚ → ℚ → Point)
    (previous_node : Point) (added_distance_km : ℚ) : ℚ :=
  (dest previous_node added_distance_km 90).2

/-- `AreaScraper.get_longitude_in_iteration`: at column 0 the longitude
cursor is returned unmodified, otherwise one step east of the node. -/
def get_longitude_in_iteration (add_lon : Point → ℚ → ℚ)
    (start_longitude : ℚ) (node : Point) (diameter : ℚ)
    (column_number : ℕ) : ℚ :=
  if column_number = 0 then start_longitude
  else add_lon node diameter

/-- `AreaScraper.get_latitude_in_iteration`: at row 0 the latitude cursor is
returned unmodified, otherwise one step south of the node. -/
def get_latitude_in_iteration (add_lat : Point → ℚ → ℚ)
    (start_latitude : ℚ) (node : Point) (diameter : ℚ)
    (row_number : ℕ) : ℚ :=
  if row_number = 0 then start_latitude
  else add_lat node diameter

/-- The inner (horizontal) loop of `AreaScraper._iterate_through_nodes`:
`for column_number in range(amount_of_requests_per_row)`, threading the
longitude cursor and the mutable `scrape_node`.  Arguments after the step
distance: remaining columns, current `column_number`, current longitude
cursor, current `scrape_node`.  Returns the emitted nodes of the line and
the final `scrape_node`. -/
def horizontal_line_nodes (add_lon : Point → ℚ → ℚ)
    (latitude diameter : ℚ) :
    ℕ → ℕ → ℚ → Point → List Point × Point
  | 0, _, _, scrape_node => ([], scrape_node)
  | cols_left + 1, column_number, longitude, scrape_node =>
    let longitude2 :=
      get_longitude_in_iteration add_lon longitude scrape_node diameter
        column_number
    let node2 : Point := (latitude, longitude2)
    let rec_result :=
      horizontal_line_nodes add_lon latitude diameter cols_left
        (column_number + 1) longitude2 node2
    (node2 :: rec_result.1, rec_result.2)

/-- The outer (vertical) loop of `AreaScraper._iterate_through_nodes`:
`for row_number in range(amount_of_requests_per_col)`, threading the latitude
cursor and the `scrape_node`.  Arguments after `amount_per_row`: remaining
rows, current `row_number`, current latitude cursor, current `scrape_node`. -/
def vertical_line_nodes (add_lat add_lon : Point → ℚ → ℚ)
    (start_longitude diameter : ℚ) (amount_per_row : ℕ) :
    ℕ → ℕ → ℚ → Point → List Point
  | 0, _, _, _ => []
  | rows_left + 1, row_number, latitude, scrape_node =>
    let latitude2 :=
      get_latitude_in_iteration add_lat latitude scrape_node diameter
        row_number
    let line :=
      horizontal_line_nodes add_lon latitude2 diameter amount_per_row 0
        start_longitude scrape_node
    line.1 ++ vertical_line_nodes add_lat add_lon start_longitude diameter
      amount_per_row rows_left (row_number + 1) latitude2 line.2

/-- `AreaScraper._iterate_through_nodes`, returning the sequence of visited
nodes: `scrape_node` starts at `(start_latitude, start_longitude)` and the
latitude cursor at `start_latitude`. -/
def iterate_through_nodes (add_lat add_lon : Point → ℚ → ℚ)
    (start_latitude start_longitude diameter : ℚ)
    (amount_per_col amount_per_row : ℕ) : List Point :=
  vertical_line_nodes add_lat add_lon start_longitude diameter amount_per_row
    amount_per_col 0 start_latitude (start_latitude, start_longitude)

/-- The same traversal as `vertical_line_nodes`, but keeping each horizontal
line as its own block (the walk is the concatenation of the blocks). -/
def node_rows (add_lat add_lon : Point → ℚ → ℚ)
    (start_longitude diameter : ℚ) (amount_per_row : ℕ) :
    ℕ → ℕ → ℚ → Point → List (List Point)
  | 0, _, _, _ => []
  | rows_left + 1, row_number, latitude, scrape_node =>
    let latitude2 :=
      get_latitude_in_iteration add_lat latitude scrape_node diameter
        row_number
    let line :=
      horizontal_line_nodes add_lon latitude2 diameter amount_per_row 0
        start_longitude scrape_node
    line.1 :: node_rows add_lat add_lon start_longitude diameter
      amount_per_row rows_left (row_number + 1) latitude2 line.2

/-- The rows of the full walk of `iterate_through_nodes`. -/
def iteration_rows (add_lat add_lon : Point → ℚ → ℚ)
    (start_latitude start_longitude diameter : ℚ)
    (amount_per_col amount_per_row : ℕ) : List (List Point) :=
  node_rows add_lat add_lon start_longitude diameter amount_per_row
    amount_per_col 0 start_latitude (start_latitude, start_longitude)

/-- `AreaScraper._scrape_single_radius`, reduced to the data that determines
the geometry: given the abstract destination function, the upper left corner,
the radii and the grid counts, it returns the walked node list together with
the search radius used for the pass.  `diameter` is `self.diameter_km`,
i.e. `big_radius_km * 2` fixed at construction. -/
def scrape_single_radius (dest : Point → ℚ → ℚ → Point)
    (upper_left_coords : Point) (big_radius_km small_radius_km : ℚ)
    (amount_per_col amount_per_row : ℕ) (radius_type : String) :
    Except String (List Point × ℚ) :=
  let diameter := big_radius_km * 2
  if radius_type = "big" then
    let start_longitude :=
      add_km_to_longitude dest upper_left_coords big_radius_km
    let start_latitude :=
      add_km_to_latitude dest upper_left_coords big_radius_km
    .ok (iterate_through_nodes (add_km_to_latitude dest)
      (add_km_to_longitude dest) start_latitude start_longitude diameter
      amount_per_col amount_per_row, big_radius_km)
  else if radius_type = "small" then
    let start_longitude :=
      add_km_to_longitude dest upper_left_coords diameter
    let start_latitude :=
      add_km_to_latitude dest upper_left_coords diameter
    .ok (iterate_through_nodes (add_km_to_latitude dest)
      (add_km_to_longitude dest) start_latitude start_longitude diameter
      amount_per_col amount_per_row, small_radius_km)
  else
    .error "Please use big or small as the radius type"

/-- The starting node as the specification words it for the big pass:
sequentially composed destination calls, one offset south and then one
offset east from the reached point. -/
def spec_composed_start (dest : Point → ℚ → ℚ → Point)
    (upper_left_coords : Point) (offset_km : ℚ) : Point :=
  dest (dest upper_left_coords offset_km 180) offset_km 90

/-- A concrete destination model witnessing that an eastward move may change
the latitude and that the longitude displacement may depend on the starting
latitude, as is the case for geodesics on the ellipsoid. -/
def curved_destination_model (previous_node : Point) (distance bearing : ℚ) :
    Point :=
  if bearing = 180 then
    (previous_node.1 - distance / 111, previous_node.2)
  else if bearing = 90 then
    (previous_node.1 - distance / 10000,
      previous_node.2 + distance * (1 + previous_node.1 / 90) / 111)
  else
    previous_node

/-! ## `gmaps_scraper.py` — pagination bound

`AreaScraper._get_data_from_location_node` issues one initial places-API
request and then follows `next_page` while it occurs among the keys of the
latest response, bailing out with an exception once the request counter `i`
would exceed 3.  The API is abstracted as a function from the page token
passed (`none` for the initial request) to the response. -/

/-- The observable part of a places-API response: the key set of the
returned dict and the value of its `next_page_token` entry, when present. -/
structure ApiResponse : Type where
  keys : List String
  next_page_token : Option String
deriving DecidableEq, Repr

/-- The loop guard `next_page in request.keys()`: Python membership of the
(possibly `None`) token value in the key list of the response. -/
def token_in_keys (next_page : Option String) (request : ApiResponse) : Bool :=
  match next_page with
  | none => false
  | some token => request.keys.contains token

/-- The `while next_page in request.keys()` loop of
`_get_data_from_location_node`, with the request counter `i` and the number
of issued API calls threaded through.  The fuel argument is an upper bound
on the remaining iterations; the loop raises (`true` flag) when `i` would
exceed 3, before issuing another request. -/
def next_page_loop (api : Option String → ApiResponse)
    (next_page : Option String) :
    ℕ → ApiResponse → ℕ → ℕ → ℕ × Bool
  | 0, _, _, calls => (calls, false)
  | fuel + 1, request, i, calls =>
    if token_in_keys next_page request then
      if i + 1 > 3 then (calls, true)
      else
        next_page_loop api next_page fuel (api next_page) (i + 1) (calls + 1)
    else (calls, false)

/-- `AreaScraper._get_data_from_location_node`, reduced to its request
budget: returns the number of places-API calls issued and whether the
too-many-pages exception was raised.  The initial request is issued with no
page token; `next_page` is the `next_page_token` value of that first
response (`None` when absent, per the `KeyError` handler). -/
def get_data_from_location_node (api : Option String → ApiResponse) :
    ℕ × Bool :=
  let request := api none
  let next_page := request.next_page_token
  next_page_loop api next_page 3 request 1 1

/-! ## Helper lemmas -/

theorem validate_coordinates_values_ok_iff (c : Point) :
    validate_coordinates_values c = .ok () ↔ coordinate_in_range c := by
  unfold validate_coordinates_values coordinate_in_range
  by_cases h1 : 90 > c.1 ∧ c.1 > -90 <;>
    by_cases h2 : 180 > c.2 ∧ c.2 > -180 <;>
    simp [h1, h2]

theorem validate_coordinates_values_invalid (c : Point)
    (h : ¬ coordinate_in_range c) :
    ∃ m, validate_coordinates_values c = .error (.invalidCoordinate m) := by
  unfold coordinate_in_range at h
  unfold validate_coordinates_values
  by_cases h1 : 90 > c.1 ∧ c.1 > -90
  · have h2 : ¬ (180 > c.2 ∧ c.2 > -180) := fun h2 => h ⟨h1, h2⟩
    exact ⟨"Longitude must be in between 180 and -180", by simp [h1, h2]⟩
  · exact ⟨"Latitude must be in between 90 and -90", by simp [h1]⟩

theorem horizontal_line_nodes_length (add_lon : Point → ℚ → ℚ)
    (latitude diameter : ℚ) :
    ∀ (k j : ℕ) (lon : ℚ) (node : Point),
      (horizontal_line_nodes add_lon latitude diameter k j lon node).1.length
        = k := by
  intro k
  induction k with
  | zero => intro j lon node; rfl
  | succ n ih =>
    intro j lon node
    simp [horizontal_line_nodes, ih]

theorem horizontal_line_nodes_latitude (add_lon : Point → ℚ → ℚ)
    (latitude diameter : ℚ) :
    ∀ (k j : ℕ) (lon : ℚ) (node : Point),
      ∀ p ∈ (horizontal_line_nodes add_lon latitude diameter k j lon node).1,
        p.1 = latitude := by
  intro k
  induction k with
  | zero => intro j lon node p hp; simp [horizontal_line_nodes] at hp
  | succ n ih =>
    intro j lon node p hp
    simp only [horizontal_line_nodes, List.mem_cons] at hp
    rcases hp with rfl | hp
    · rfl
    · exact ih _ _ _ p hp

theorem horizontal_line_nodes_final_latitude (add_lon : Point → ℚ → ℚ)
    (latitude diameter : ℚ) :
    ∀ (k j : ℕ) (lon : ℚ) (node : Point), k ≠ 0 →
      (horizontal_line_nodes add_lon latitude diameter k j lon node).2.1
        = latitude := by
  intro k
  induction k with
  | zero => intro j lon node h; exact absurd rfl h
  | succ n ih =>
    intro j lon node _
    cases n with
    | zero => rfl
    | succ m =>
      simp only [horizontal_line_nodes]
      exact ih _ _ _ (Nat.succ_ne_zero m)

theorem horizontal_line_nodes_head (add_lon : Point → ℚ → ℚ)
    (latitude diameter : ℚ) (k j : ℕ) (lon : ℚ) (node : Point) :
    (horizontal_line_nodes add_lon latitude diameter (k + 1) j lon node).1.head?
      = some (latitude,
          get_longitude_in_iteration add_lon lon node diameter j) := rfl

theorem horizontal_line_nodes_chain (add_lon : Point → ℚ → ℚ)
    (latitude diameter : ℚ)
    (hlon : ∀ (p : Point) (δ : ℚ), 0 < δ → p.2 < add_lon p δ)
    (hd : 0 < diameter) :
    ∀ (k j : ℕ) (lon : ℚ) (node : Point),
      List.Chain' (fun p q : Point => p.2 < q.2)
        (horizontal_line_nodes add_lon latitude diameter k j lon node).1 := by
  intro k
  induction k with
  | zero => intro j lon node; simp [horizontal_line_nodes]
  | succ n ih =>
    intro j lon node
    simp only [horizontal_line_nodes]
    rw [List.chain'_cons']
    refine ⟨?_, ih _ _ _⟩
    cases n with
    | zero => simp [horizontal_line_nodes]
    | succ m =>
      intro b hb
      rw [horizontal_line_nodes_head, Option.mem_def, Option.some_inj] at hb
      subst hb
      simpa [get_longitude_in_iteration] using
        hlon (latitude,
          get_longitude_in_iteration add_lon lon node diameter j) diameter hd

theorem vertical_eq_node_rows_flatten (add_lat add_lon : Point → ℚ → ℚ)
    (slon d : ℚ) (c : ℕ) :
    ∀ (k i : ℕ) (lat : ℚ) (node : Point),
      vertical_line_nodes add_lat add_lon slon d c k i lat node =
        (node_rows add_lat add_lon slon d c k i lat node).flatten := by
  intro k
  induction k with
  | zero => intro i lat node; rfl
  | succ n ih =>
    intro i lat node
    simp [vertical_line_nodes, node_rows, ih]

theorem vertical_line_nodes_length (add_lat add_lon : Point → ℚ → ℚ)
    (slon d : ℚ) (c : ℕ) :
    ∀ (k i : ℕ) (lat : ℚ) (node : Point),
      (vertical_line_nodes add_lat add_lon slon d c k i lat node).length
        = k * c := by
  intro k
  induction k with
  | zero => intro i lat node; simp [vertical_line_nodes]
  | succ n ih =>
    intro i lat node
    simp [vertical_line_nodes, horizontal_line_nodes_length, ih,
      Nat.succ_mul, Nat.add_comm]

theorem node_rows_length (add_lat add_lon : Point → ℚ → ℚ)
    (slon d : ℚ) (c : ℕ) :
    ∀ (k i : ℕ) (lat : ℚ) (node : Point),
      (node_rows add_lat add_lon slon d c k i lat node).length = k := by
  intro k
  induction k with
  | zero => intro i lat node; rfl
  | succ n ih =>
    intro i lat node
    simp [node_rows, ih]

theorem node_rows_line_length (add_lat add_lon : Point → ℚ → ℚ)
    (slon d : ℚ) (c : ℕ) :
    ∀ (k i : ℕ) (lat : ℚ) (node : Point),
      ∀ line ∈ node_rows add_lat add_lon slon d c k i lat node,
        line.length = c := by
  intro k
  induction k with
  | zero => intro i lat node line hl; simp [node_rows] at hl
  | succ n ih =>
    intro i lat node line hl
    simp only [node_rows, List.mem_cons] at hl
    rcases hl with rfl | hl
    · exact horizontal_line_nodes_length _ _ _ _ _ _ _
    · exact ih _ _ _ line hl

theorem node_rows_line_latitude (add_lat add_lon : Point → ℚ → ℚ)
    (slon d : ℚ) (c : ℕ) :
    ∀ (k i : ℕ) (lat : ℚ) (node : Point),
      ∀ line ∈ node_rows add_lat add_lon slon d c k i lat node,
        ∃ lat0, ∀ p ∈ line, p.1 = lat0 := by
  intro k
  induction k with
  | zero => intro i lat node line hl; simp [node_rows] at hl
  | succ n ih =>
    intro i lat node line hl
    simp only [node_rows, List.mem_cons] at hl
    rcases hl with rfl | hl
    · exact ⟨_, horizontal_line_nodes_latitude _ _ _ _ _ _ _⟩
    · exact ih _ _ _ line hl

theorem node_rows_head_longitude (add_lat add_lon : Point → ℚ → ℚ)
    (slon d : ℚ) (c : ℕ) :
    ∀ (k i : ℕ) (lat : ℚ) (node : Point),
      ∀ line ∈ node_rows add_lat add_lon slon d c k i lat node,
        ∀ p : Point, line.head? = some p → p.2 = slon := by
  intro k
  induction k with
  | zero => intro i lat node line hl; simp [node_rows] at hl
  | succ n ih =>
    intro i lat node line hl p hp
    simp only [node_rows, List.mem_cons] at hl
    rcases hl with rfl | hl
    · cases c with
      | zero => cases hp
      | succ m =>
        rw [horizontal_line_nodes_head, Option.some_inj] at hp
        subst hp
        rfl
    · exact ih _ _ _ line hl p hp

theorem node_rows_chain_east (add_lat add_lon : Point → ℚ → ℚ)
    (slon d : ℚ) (c : ℕ)
    (hlon : ∀ (p : Point) (δ : ℚ), 0 < δ → p.2 < add_lon p δ)
    (hd : 0 < d) :
    ∀ (k i : ℕ) (lat : ℚ) (node : Point),
      ∀ line ∈ node_rows add_lat add_lon slon d c k i lat node,
        List.Chain' (fun p q : Point => p.2 < q.2) line := by
  intro k
  induction k with
  | zero => intro i lat node line hl; simp [node_rows] at hl
  | succ n ih =>
    intro i lat node line hl
    simp only [node_rows, List.mem_cons] at hl
    rcases hl with rfl | hl
    · exact horizontal_line_nodes_chain _ _ _ hlon hd _ _ _ _
    · exact ih _ _ _ line hl

theorem node_rows_chain_south (add_lat add_lon : Point → ℚ → ℚ)
    (slon d : ℚ) (c : ℕ)
    (hlat : ∀ (p : Point) (δ : ℚ), 0 < δ → add_lat p δ < p.1)
    (hd : 0 < d) :
    ∀ (k i : ℕ) (lat : ℚ) (node : Point),
      List.Chain' (fun l1 l2 => ∀ p ∈ l1, ∀ q ∈ l2, q.1 < p.1)
        (node_rows add_lat add_lon slon d c k i lat node) := by
  intro k
  induction k with
  | zero => intro i lat node; simp [node_rows]
  | succ n ih =>
    intro i lat node
    simp only [node_rows]
    rw [List.chain'_cons']
    refine ⟨?_, ih _ _ _⟩
    cases n with
    | zero => simp [node_rows]
    | succ m =>
      intro l2 hl2
      simp only [node_rows, List.head?_cons, Option.mem_def,
        Option.some_inj] at hl2
      subst hl2
      intro p hp q hq
      have hc : c ≠ 0 := by
        rintro rfl
        simp [horizontal_line_nodes] at hp
      have hp1 := horizontal_line_nodes_latitude add_lon _ d c 0 slon node p hp
      have hq1 := horizontal_line_nodes_latitude add_lon _ d c 0 slon _ q hq
      rw [hp1, hq1]
      have hfin := horizontal_line_nodes_final_latitude add_lon
        (get_latitude_in_iteration add_lat lat node d i) d c 0 slon node hc
      simp only [get_latitude_in_iteration, Nat.succ_ne_zero, if_neg,
        if_false]
      calc add_lat (horizontal_line_nodes add_lon
            (get_latitude_in_iteration add_lat lat node d i) d c 0 slon
            node).2 d
          < (horizontal_line_nodes add_lon
            (get_latitude_in_iteration add_lat lat node d i) d c 0 slon
            node).2.1 := hlat _ d hd
        _ = get_latitude_in_iteration add_lat lat node d i := hfin

/-! ## Claims -/

/-- C1: `calculate_small_radius`, with the diameter fixed to twice the big
radius at construction, raises exactly when the big radius is nonpositive,
otherwise returns `sqrt(2 * diameter^2) - diameter`; it fails for the big
radii `0` and `-1` and returns a value within `1e-6` of `0.8284271` for big
radius `1`. -/
theorem claim_C1 :
    (∀ b : ℝ, (∃ e, calculate_small_radius (diameter_km b) = .error e) ↔ b ≤ 0) ∧
    (∀ b : ℝ, 0 < b →
      calculate_small_radius (diameter_km b) =
        .ok (Real.sqrt (2 * (2 * b) ^ 2) - 2 * b)) ∧
    (∃ e, calculate_small_radius (diameter_km 0) = .error e) ∧
    (∃ e, calculate_small_radius (diameter_km (-1)) = .error e) ∧
    (∃ r, calculate_small_radius (diameter_km 1) = .ok r ∧
      |r - 0.8284271| < 1 / 1000000) := by
  refine ⟨?_, ?_, ?_, ?_, ?_⟩
  · intro b
    unfold calculate_small_radius diameter_km
    by_cases hb : b * 2 ≤ 0
    · simp only [if_pos hb]
      constructor
      · intro _; linarith
      · intro _; exact ⟨_, rfl⟩
    · simp only [if_neg hb]
      constructor
      · rintro ⟨e, h⟩; cases h
      · intro h; exact absurd (by linarith : b * 2 ≤ 0) hb
  · intro b hb
    unfold calculate_small_radius diameter_km
    rw [if_neg (by linarith), mul_comm b 2]
  · exact ⟨"diameter must be bigger than 0!",
      by norm_num [calculate_small_radius, diameter_km]⟩
  · exact ⟨"diameter must be bigger than 0!",
      by norm_num [calculate_small_radius, diameter_km]⟩
  · refine ⟨Real.sqrt 8 - 2, ?_, ?_⟩
    · unfold calculate_small_radius diameter_km
      rw [if_neg (by norm_num)]
      norm_num
    · have h8 : Real.sqrt 8 ^ 2 = 8 := Real.sq_sqrt (by norm_num)
      have hpos : (0 : ℝ) ≤ Real.sqrt 8 := Real.sqrt_nonneg 8
      rw [abs_lt]
      constructor <;> nlinarith [h8, hpos]

/-- Witness for C1 at big radius `1`. -/
theorem claim_C1_witness :
    (0 : ℝ) < 1 ∧
    calculate_small_radius (diameter_km 1) =
      .ok (Real.sqrt (2 * (2 * 1) ^ 2) - 2 * 1) :=
  ⟨by norm_num, claim_C1.2.1 1 (by norm_num)⟩

/-- C5: `validate_amount_of_requests` raises exactly when
`axisLengthKm / diameterKm < 2`, succeeds at exactly `2`, and whenever it
passes the floor of the quotient is at least `2`. -/
theorem claim_C5 :
    (∀ g d : ℚ, (∃ e, validate_amount_of_requests g d = .error e) ↔ g / d < 2) ∧
    (∀ g d : ℚ, g / d = 2 → validate_amount_of_requests g d = .ok ()) ∧
    (∀ g d : ℚ, validate_amount_of_requests g d = .ok () → 2 ≤ ⌊g / d⌋) := by
  refine ⟨?_, ?_, ?_⟩
  · intro g d
    unfold validate_amount_of_requests
    by_cases h : 2 > g / d
    · simp only [if_pos h]
      exact ⟨fun _ => h, fun _ => ⟨_, rfl⟩⟩
    · simp only [if_neg h]
      constructor
      · rintro ⟨e, he⟩; cases he
      · intro hlt; exact absurd hlt h
  · intro g d h
    unfold validate_amount_of_requests
    rw [h]
    norm_num
  · intro g d h
    unfold validate_amount_of_requests at h
    by_cases hlt : 2 > g / d
    · simp [hlt] at h
    · exact Int.le_floor.mpr (by exact_mod_cast not_lt.mp hlt)

/-- Witness for C5 at `axisLengthKm = 4`, `diameterKm = 2`. -/
theorem claim_C5_witness :
    validate_amount_of_requests 4 2 = .ok () ∧ 2 ≤ ⌊(4 : ℚ) / 2⌋ :=
  ⟨claim_C5.2.1 4 2 (by norm_num),
   claim_C5.2.2 4 2 (claim_C5.2.1 4 2 (by norm_num))⟩

/-- C6: `validate_coordinates_position` reports an invalid-coordinate error
whenever either corner is out of range (regardless of the ordering), reports
an invalid-bounding-box error when both corners are in range but crossed,
and succeeds exactly when both corners are in range and well ordered. -/
theorem claim_C6 :
    (∀ ul lr : Point,
      (¬ coordinate_in_range ul ∨ ¬ coordinate_in_range lr) →
      ∃ m, validate_coordinates_position ul lr =
        .error (.invalidCoordinate m)) ∧
    (∀ ul lr : Point,
      coordinate_in_range ul → coordinate_in_range lr →
      (lr.1 > ul.1 ∨ ul.2 > lr.2) →
      ∃ m, validate_coordinates_position ul lr =
        .error (.invalidBoundingBox m)) ∧
    (∀ ul lr : Point,
      validate_coordinates_position ul lr = .ok () ↔
      (coordinate_in_range ul ∧ coordinate_in_range lr ∧
        lr.1 ≤ ul.1 ∧ ul.2 ≤ lr.2)) := by
  refine ⟨?_, ?_, ?_⟩
  · intro ul lr h
    unfold validate_coordinates_position
    by_cases hul : coordinate_in_range ul
    · have hlr : ¬ coordinate_in_range lr := by tauto
      obtain ⟨m, hm⟩ := validate_coordinates_values_invalid lr hlr
      rw [(validate_coordinates_values_ok_iff ul).mpr hul, hm]
      exact ⟨m, rfl⟩
    · obtain ⟨m, hm⟩ := validate_coordinates_values_invalid ul hul
      rw [hm]
      exact ⟨m, rfl⟩
  · intro ul lr hul hlr hcross
    unfold validate_coordinates_position
    rw [(validate_coordinates_values_ok_iff ul).mpr hul,
      (validate_coordinates_values_ok_iff lr).mpr hlr]
    by_cases h1 : lr.1 > ul.1
    · exact ⟨"The lower right coordinates latitude must not be higher",
        by simp [h1]⟩
    · have h2 : ul.2 > lr.2 := by tauto
      exact ⟨"The upper left coordinates longitude must not be higher",
        by simp [h1, h2]⟩
  · intro ul lr
    constructor
    · intro h
      by_cases hul : coordinate_in_range ul
      · by_cases hlr : coordinate_in_range lr
        · unfold validate_coordinates_position at h
          rw [(validate_coordinates_values_ok_iff ul).mpr hul,
            (validate_coordinates_values_ok_iff lr).mpr hlr] at h
          by_cases h1 : lr.1 > ul.1
          · simp [h1] at h
          · by_cases h2 : ul.2 > lr.2
            · simp [h1, h2] at h
            · exact ⟨hul, hlr, not_lt.mp h1, not_lt.mp h2⟩
        · obtain ⟨m, hm⟩ := validate_coordinates_values_invalid lr hlr
          unfold validate_coordinates_position at h
          rw [(validate_coordinates_values_ok_iff ul).mpr hul, hm] at h
          cases h
      · obtain ⟨m, hm⟩ := validate_coordinates_values_invalid ul hul
        unfold validate_coordinates_position at h
        rw [hm] at h
        cases h
    · rintro ⟨hul, hlr, h1, h2⟩
      unfold validate_coordinates_position
      rw [(validate_coordinates_values_ok_iff ul).mpr hul,
        (validate_coordinates_values_ok_iff lr).mpr hlr]
      rw [if_neg (not_lt.mpr h1), if_neg (not_lt.mpr h2)]

/-- Witness for C6: an out-of-range corner on a crossed box is reported as an
invalid coordinate, and a valid box passes. -/
theorem claim_C6_witness :
    (∃ m, validate_coordinates_position ((91 : ℚ), (0 : ℚ)) ((92 : ℚ), (0 : ℚ)) =
      .error (.invalidCoordinate m)) ∧
    validate_coordinates_position ((1 : ℚ), (0 : ℚ)) ((0 : ℚ), (1 : ℚ)) = .ok () :=
  ⟨claim_C6.1 (91, 0) (92, 0) (Or.inl (by norm_num [coordinate_in_range])),
   (claim_C6.2.2 (1, 0) (0, 1)).mpr
     ⟨by norm_num [coordinate_in_range], by norm_num [coordinate_in_range],
      by norm_num, by norm_num⟩⟩

/-- C2: whenever both axis validations pass, `calculate_amount_of_requests`
returns the floors of the measured width and length divided by the diameter;
for the worked Berlin box at diameter 2 km, with the geodesic axis lengths in
the ranges the external library reports, the result is `(24, 15)`. -/
theorem claim_C2 :
    (∀ (dist : Point → Point → ℚ) (diameter : ℚ)
        (ul lr ur : Point) (p : ℤ × ℤ),
      calculate_amount_of_requests dist diameter ul lr ur = .ok p →
      p = (⌊dist ul ur / diameter⌋, ⌊dist lr ur / diameter⌋)) ∧
    (∀ dist : Point → Point → ℚ,
      48 ≤ dist example_upper_left example_upper_right →
      dist example_upper_left example_upper_right < 50 →
      30 ≤ dist example_lower_right example_upper_right →
      dist example_lower_right example_upper_right < 32 →
      calculate_amount_of_requests dist 2 example_upper_left
        example_lower_right example_upper_right = .ok (24, 15)) := by
  constructor
  · intro dist diameter ul lr ur p h
    unfold calculate_amount_of_requests at h
    rcases h1 : validate_amount_of_requests (dist ul ur) diameter with e | u
    · rw [h1] at h; cases h
    · rcases h2 : validate_amount_of_requests (dist lr ur) diameter with e | u
      · rw [h1, h2] at h; cases h
      · rw [h1, h2] at h
        cases u
        injection h with h
        exact h.symm
  · intro dist h1 h2 h3 h4
    have hw : validate_amount_of_requests
        (dist example_upper_left example_upper_right) 2 = .ok () := by
      unfold validate_amount_of_requests
      rw [if_neg (by push_neg; linarith)]
    have hl : validate_amount_of_requests
        (dist example_lower_right example_upper_right) 2 = .ok () := by
      unfold validate_amount_of_requests
      rw [if_neg (by push_neg; linarith)]
    unfold calculate_amount_of_requests
    rw [hw, hl]
    have hfw : ⌊dist example_upper_left example_upper_right / 2⌋ = 24 := by
      rw [Int.floor_eq_iff]
      push_cast
      constructor <;> linarith
    have hfl : ⌊dist example_lower_right example_upper_right / 2⌋ = 15 := by
      rw [Int.floor_eq_iff]
      push_cast
      constructor <;> linarith
    rw [hfw, hfl]

/-- Witness for C2: a distance function agreeing with the externally
measured axis lengths of the Berlin box yields the grid `(24, 15)`. -/
theorem claim_C2_witness :
    calculate_amount_of_requests
      (fun a _ => if a = example_upper_left then 483 / 10 else 31) 2
      example_upper_left example_lower_right example_upper_right =
      .ok (24, 15) :=
  claim_C2.2 _ (by norm_num) (by norm_num)
    (by norm_num [example_lower_right, example_upper_left])
    (by norm_num [example_lower_right, example_upper_left])

/-- C9: inputs whose stripped raw text is nonempty never raise, even when
every comma-separated chunk strips to nothing, so `",,"` and `" , , "`
return the empty list without an error. -/
theorem claim_C9 :
    (∀ s : List Char, strip s ≠ [] →
      ∃ l, search_terms_to_list s = .ok l) ∧
    (strip (String.toList ",,") ≠ [] ∧
      search_terms_to_list (String.toList ",,") = .ok []) ∧
    (strip (String.toList " , , ") ≠ [] ∧
      search_terms_to_list (String.toList " , , ") = .ok []) := by
  refine ⟨?_, ⟨by decide, by rfl⟩, ⟨by decide, by rfl⟩⟩
  intro s hs
  unfold search_terms_to_list validate_search_terms
  rw [if_neg hs]
  exact ⟨_, rfl⟩

/-- Witness for C9 at the input `",,"`. -/
theorem claim_C9_witness :
    ∃ l, search_terms_to_list (String.toList ",,") = .ok l :=
  claim_C9.1 (String.toList ",,") (by decide)

/-- Counterexample to C7 as stated: the implementation neither deduplicates
(`"a,a"` keeps both copies) nor raises when the cleaned result is empty
(`",,"` has nonempty raw text but yields the empty list without error). -/
theorem claim_C7_counterexample :
    (search_terms_to_list (String.toList "a,a") =
        .ok [String.toList "a", String.toList "a"] ∧
      ¬ ([String.toList "a", String.toList "a"] : List (List Char)).Nodup) ∧
    (strip (String.toList ",,,") ≠ [] ∧
      search_terms_to_list (String.toList ",,,") = .ok []) := by
  refine ⟨⟨by rfl, by decide⟩, by decide, by rfl⟩

/-- C7 as amended: `search_terms_to_list` raises the empty-search-terms
error exactly when the raw input strips to nothing; on success every
returned term is nonempty and is the stripped form of one comma-separated
chunk, in input order (duplicates are kept, not removed); the worked example
parses to `["abc", "def", "ghi", "123"]`. -/
theorem claim_C7_amended :
    (∀ s : List Char,
      (∃ e, search_terms_to_list s = .error e) ↔ strip s = []) ∧
    (∀ (s : List Char) (l : List (List Char)),
      search_terms_to_list s = .ok l →
      (∀ t ∈ l, t ≠ [] ∧ t ∈ (split_on_comma s).map strip) ∧
      l.Sublist ((split_on_comma s).map strip)) ∧
    search_terms_to_list (String.toList "abc, def,,   ,ghi,123") =
      .ok [String.toList "abc", String.toList "def",
        String.toList "ghi", String.toList "123"] := by
  refine ⟨?_, ?_, by rfl⟩
  · intro s
    unfold search_terms_to_list validate_search_terms
    by_cases hs : strip s = []
    · rw [if_pos hs]
      exact ⟨fun _ => hs, fun _ => ⟨_, rfl⟩⟩
    · rw [if_neg hs]
      constructor
      · rintro ⟨e, he⟩; cases he
      · intro h; exact absurd h hs
  · intro s l h
    unfold search_terms_to_list validate_search_terms at h
    by_cases hs : strip s = []
    · rw [if_pos hs] at h; cases h
    · rw [if_neg hs] at h
      injection h with h
      subst h
      constructor
      · intro t ht
        rw [List.mem_filter] at ht
        exact ⟨by simpa using ht.2, ht.1⟩
      · exact List.filter_sublist _

/-- Witness for C7 (amended) at the input `"a, b"`. -/
theorem claim_C7_amended_witness :
    (∀ t ∈ [String.toList "a", String.toList "b"],
      t ≠ [] ∧ t ∈ (split_on_comma (String.toList "a, b")).map strip) ∧
    ([String.toList "a", String.toList "b"]).Sublist
      ((split_on_comma (String.toList "a, b")).map strip) :=
  claim_C7_amended.2.1 (String.toList "a, b")
    [String.toList "a", String.toList "b"] (by rfl)

/-- C3: the walk of `_iterate_through_nodes` over a grid of `r` rows and `c`
columns visits exactly `r * c` nodes (including the starting node), is empty
without error when `r = 0` or `c = 0`, and is the row-major concatenation of
`r` rows of `c` nodes each; rows move strictly south and, within a row,
columns strictly east, whenever the destination function does. -/
theorem claim_C3 :
    ∀ (add_lat add_lon : Point → ℚ → ℚ) (slat slon d : ℚ) (r c : ℕ),
      (iterate_through_nodes add_lat add_lon slat slon d r c).length = r * c ∧
      (r = 0 ∨ c = 0 →
        iterate_through_nodes add_lat add_lon slat slon d r c = []) ∧
      iterate_through_nodes add_lat add_lon slat slon d r c =
        (iteration_rows add_lat add_lon slat slon d r c).flatten ∧
      (iteration_rows add_lat add_lon slat slon d r c).length = r ∧
      (∀ line ∈ iteration_rows add_lat add_lon slat slon d r c,
        line.length = c) ∧
      ((∀ (p : Point) (δ : ℚ), 0 < δ → add_lat p δ < p.1) → 0 < d →
        List.Chain' (fun l1 l2 => ∀ p ∈ l1, ∀ q ∈ l2, q.1 < p.1)
          (iteration_rows add_lat add_lon slat slon d r c)) ∧
      ((∀ (p : Point) (δ : ℚ), 0 < δ → p.2 < add_lon p δ) → 0 < d →
        ∀ line ∈ iteration_rows add_lat add_lon slat slon d r c,
          List.Chain' (fun p q : Point => p.2 < q.2) line) := by
  intro add_lat add_lon slat slon d r c
  refine ⟨vertical_line_nodes_length _ _ _ _ _ _ _ _ _, ?_,
    vertical_eq_node_rows_flatten _ _ _ _ _ _ _ _ _,
    node_rows_length _ _ _ _ _ _ _ _ _,
    node_rows_line_length _ _ _ _ _ _ _ _ _,
    fun hlat hd => node_rows_chain_south _ _ _ _ _ hlat hd _ _ _ _,
    fun hlon hd => node_rows_chain_east _ _ _ _ _ hlon hd _ _ _ _⟩
  intro h
  have hlen := vertical_line_nodes_length add_lat add_lon slon d c r 0 slat
    (slat, slon)
  rcases h with rfl | rfl
  · rfl
  · exact List.eq_nil_of_length_eq_zero (by simpa using hlen)

/-- Witness for C3: an empty grid yields an empty walk, and rows move south
for a concrete southward-stepping destination model. -/
theorem claim_C3_witness :
    iterate_through_nodes (fun p δ => p.1 - δ) (fun p δ => p.2 + δ)
      0 0 1 0 5 = [] ∧
    List.Chain' (fun l1 l2 => ∀ p ∈ l1, ∀ q ∈ l2, q.1 < p.1)
      (iteration_rows (fun p δ => p.1 - δ) (fun p δ => p.2 + δ) 0 0 1 2 2) :=
  ⟨(claim_C3 _ _ 0 0 1 0 5).2.1 (Or.inl rfl),
   (claim_C3 _ _ 0 0 1 2 2).2.2.2.2.2.1
     (fun p δ hδ => by simpa using hδ) (by norm_num)⟩

/-- C10: every row of the walk of `_iterate_through_nodes` has a single
shared latitude, and the first node of each row carries exactly the overall
start longitude. -/
theorem claim_C10 :
    ∀ (add_lat add_lon : Point → ℚ → ℚ) (slat slon d : ℚ) (r c : ℕ),
      iterate_through_nodes add_lat add_lon slat slon d r c =
        (iteration_rows add_lat add_lon slat slon d r c).flatten ∧
      (∀ line ∈ iteration_rows add_lat add_lon slat slon d r c,
        ∃ lat0, ∀ p ∈ line, p.1 = lat0) ∧
      (∀ line ∈ iteration_rows add_lat add_lon slat slon d r c,
        ∀ p : Point, line.head? = some p → p.2 = slon) := by
  intro add_lat add_lon slat slon d r c
  exact ⟨vertical_eq_node_rows_flatten _ _ _ _ _ _ _ _ _,
    node_rows_line_latitude _ _ _ _ _ _ _ _ _,
    node_rows_head_longitude _ _ _ _ _ _ _ _ _⟩

/-- Witness for C10 on a concrete 1-row, 2-column walk. -/
theorem claim_C10_witness :
    (((0 : ℚ), (0 : ℚ)) : Point).2 = (0 : ℚ) :=
  (claim_C10 (fun p _ => p.1) (fun p _ => p.2) 0 0 1 1 2).2.2
    [((0 : ℚ), (0 : ℚ)), ((0 : ℚ), (0 : ℚ))] (by decide) ((0 : ℚ), (0 : ℚ))
    (by decide)

/-- Counterexample to C4 as stated: for a destination model under which an
eastward geodesic changes the latitude (as on the ellipsoid), the walk of
the big pass does not start at the sequential composition
`destination(destination(upperLeft, r, 180), r, 90)` — the code computes
the start latitude and the start longitude independently from the corner. -/
theorem claim_C4_counterexample :
    scrape_single_radius curved_destination_model ((1 : ℚ), (0 : ℚ)) 1 (1 / 2)
      1 1 "big" =
      .ok ([((110 / 111 : ℚ), (91 / 9990 : ℚ))], 1) ∧
    (((110 / 111 : ℚ), (91 / 9990 : ℚ)) : Point) ≠
      spec_composed_start curved_destination_model ((1 : ℚ), (0 : ℚ)) 1 := by
  constructor
  · norm_num [scrape_single_radius, curved_destination_model,
      add_km_to_latitude, add_km_to_longitude, iterate_through_nodes,
      vertical_line_nodes, horizontal_line_nodes, get_latitude_in_iteration,
      get_longitude_in_iteration, Prod.ext_iff]
  · norm_num [spec_composed_start, curved_destination_model, Prod.ext_iff]

/-- C4 as amended: the big pass starts at the node whose latitude is that of
`destination(upperLeft, bigRadiusKm, 180)` and whose longitude is that of
`destination(upperLeft, bigRadiusKm, 90)` — the two components computed
independently from the corner, not sequentially composed — and the small
pass likewise with the full diameter `2 * bigRadiusKm`; both passes walk
with step `diameterKm` and the same grid counts. -/
theorem claim_C4_amended :
    ∀ (dest : Point → ℚ → ℚ → Point) (ul : Point) (br sr : ℚ) (nc nr : ℕ),
      scrape_single_radius dest ul br sr nc nr "big" =
        .ok (iterate_through_nodes (add_km_to_latitude dest)
          (add_km_to_longitude dest) ((dest ul br 180).1) ((dest ul br 90).2)
          (br * 2) nc nr, br) ∧
      scrape_single_radius dest ul br sr nc nr "small" =
        .ok (iterate_through_nodes (add_km_to_latitude dest)
          (add_km_to_longitude dest) ((dest ul (br * 2) 180).1)
          ((dest ul (br * 2) 90).2) (br * 2) nc nr, sr) := by
  intro dest ul br sr nc nr
  constructor
  · rfl
  · rfl

/-- C8: `_get_data_from_location_node` issues at most 3 places-API requests
per node, and when it raises the too-many-pages exception it has issued
exactly 3 requests and raises before issuing a fourth. -/
theorem claim_C8 :
    ∀ api : Option String → ApiResponse,
      (get_data_from_location_node api).1 ≤ 3 ∧
      ((get_data_from_location_node api).2 = true →
        (get_data_from_location_node api).1 = 3) := by
  intro api
  unfold get_data_from_location_node
  rcases hg1 : token_in_keys (api none).next_page_token (api none) with _ | _
  · simp [next_page_loop, hg1]
  · rcases hg2 : token_in_keys (api none).next_page_token
        (api (api none).next_page_token) with _ | _ <;>
      simp [next_page_loop, hg1, hg2]

/-- Witness for C8: an API that always offers a next page makes the loop
raise after exactly 3 issued requests. -/
theorem claim_C8_witness :
    (get_data_from_location_node
      (fun _ => ⟨["next_page_token", "tok"], some "tok"⟩)).1 = 3 :=
  (claim_C8 (fun _ => ⟨["next_page_token", "tok"], some "tok"⟩)).2 (by rfl)

